import Mathlib

/-!
Shallow embedding of the ColonyCraft backend's rate-limiting and credential
lifecycle core (src/backend/src), faithful to the Python source:

* `src/core/auth/api_key.py` — `APIKey` class: `generate`, `verify`,
  `parse_key`, `is_expired`, `is_in_grace_period`, and the request-time
  authentication flow `get_current_user_from_api_key`.
* `src/models/api_key.py` — ORM model predicates `is_valid`,
  `is_in_grace_period`.
* `src/crud/api_key.py` — `rotate_api_key`'s mutation of the old key.
* `src/core/auth/scope.py` — `require_scope` scope authorization.
* `src/core/security.py` — `TokenBucket` with lazy refill.
* `src/core/optimizations/circuit_breaker.py` — `CircuitBreaker`.

Modelling conventions: wall-clock instants and float arithmetic are
rationals (`ℚ`); Python `datetime` comparisons become `ℚ` order; a
`timedelta(days=d)` is `d * 86400` seconds.  SHA-256 is kept abstract: every
hash-dependent operation is parameterised by a hash function
`H : String → String` (the code calls `hashlib.sha256(...).hexdigest()`, an
opaque external primitive).  `hmac.compare_digest` is modelled by its value
behaviour, string equality (its constant-time execution is a timing
property, not a value property).  Python exceptions become `Except` /
sum-type results.  The Python name `prefix` is a Lean keyword, so the field
is called `pfx` here.
-/

namespace ColonyCraft

/-- Value behaviour of `hmac.compare_digest` on hex-digest strings:
equality of the two strings. -/
def compare_digest (a b : String) : Bool :=
  a == b

/-- Helper for `key_value.split(".", 1)`: split a character list at the
first `'.'`; `none` when no `'.'` occurs (Python then raises `ValueError`
on unpacking). -/
def splitFirstDot : List Char → Option (List Char × List Char)
  | [] => none
  | c :: rest =>
    if c = '.' then some ([], rest)
    else
      match splitFirstDot rest with
      | none => none
      | some (a, b) => some (c :: a, b)

/-- `APIKey.parse_key` from `src/core/auth/api_key.py`:
`prefix, secret = key_value.split(".", 1)`, raising on malformed input
(no separator), modelled as `none`. -/
def parse_key (key_value : String) : Option (String × String) :=
  (splitFirstDot key_value.data).map fun p => (String.mk p.1, String.mk p.2)

/-- The `APIKey` record of `src/core/auth/api_key.py` (same fields as the
ORM model in `src/models/api_key.py`, which stores `scopes` for `scope`).
`pfx` is the Python `prefix` field. -/
structure APIKey where
  id : String
  key_hash : String
  pfx : String
  name : String
  user_id : String
  scope : List String
  created_at : ℚ
  expires_at : Option ℚ
  is_active : Bool
  rotated_from_id : Option String
  rotation_date : Option ℚ
  grace_period_days : Option ℤ
  grace_period_end : Option ℚ
  was_compromised : Bool
  deriving Repr, DecidableEq

/-- `APIKey.verify` from `src/core/auth/api_key.py`:
`calculated_hash = hashlib.sha256(key_value.encode()).hexdigest();`
`return hmac.compare_digest(calculated_hash, key_hash)` — the hash is taken
of the ENTIRE provided value. -/
def APIKey.verify (H : String → String) (key_value key_hash : String) : Bool :=
  compare_digest (H key_value) key_hash

/-- Modelled from the spec's words (for comparison with `APIKey.verify`,
which is the code): "split on the first `.`, recompute hash of the secret
portion, compare against `storedHash` using constant-time comparison.
Malformed input (missing separator) fails closed." -/
def verifySpecWords (H : String → String) (key_value key_hash : String) : Bool :=
  match parse_key key_value with
  | none => false
  | some (_, secret) => compare_digest (H secret) key_hash

/-- `APIKey.generate` from `src/core/auth/api_key.py`.  The random draws
(`secrets.token_hex(4)`, `secrets.token_urlsafe(32)`, the UUID) are inputs
`pfx`, `secret`, `key_id`; `now` is the clock.  Note the Python truthiness
test `if expires_in_days:` — a value of `0` leaves `expires_at = None`. -/
def APIKey.generate (H : String → String) (user_id name : String)
    (scopes : List String) (expires_in_days : Option ℤ)
    (pfx secret key_id : String) (now : ℚ) : APIKey × String :=
  let key_value := pfx ++ "." ++ secret
  let key_hash := H key_value
  let expires_at : Option ℚ :=
    match expires_in_days with
    | some d => if d = 0 then none else some (now + (d : ℚ) * 86400)
    | none => none
  (⟨key_id, key_hash, pfx, name, user_id, scopes, now, expires_at,
    true, none, none, none, none, false⟩, key_value)

/-- `APIKey.is_expired` from `src/core/auth/api_key.py`:
`if not self.expires_at: return False; return datetime.now(UTC) > self.expires_at`. -/
def APIKey.is_expired (k : APIKey) (now : ℚ) : Bool :=
  match k.expires_at with
  | none => false
  | some e => decide (e < now)

/-- Auth-layer `APIKey.is_in_grace_period` from `src/core/auth/api_key.py`:
`if not self.grace_period_end: return False; return now <= self.grace_period_end`. -/
def APIKey.is_in_grace_period (k : APIKey) (now : ℚ) : Bool :=
  match k.grace_period_end with
  | none => false
  | some e => decide (now ≤ e)

namespace Model

/-- ORM `APIKey.is_valid` from `src/models/api_key.py`:
inactive → invalid; `expires_at` set and `< now` → invalid; else valid. -/
def is_valid (k : APIKey) (now : ℚ) : Bool :=
  if !k.is_active then false
  else
    match k.expires_at with
    | some e => if decide (e < now) then false else true
    | none => true

/-- ORM `APIKey.is_in_grace_period` from `src/models/api_key.py`:
`if not self.grace_period_end: return False; return self.grace_period_end > datetime.now(UTC)`. -/
def is_in_grace_period (k : APIKey) (now : ℚ) : Bool :=
  match k.grace_period_end with
  | none => false
  | some e => decide (now < e)

end Model

/-- The old-key mutation performed by `rotate_api_key` in
`src/crud/api_key.py` (lines 91–101): compromised rotation deactivates the
key, marks it compromised and clears the grace fields; routine rotation
sets `grace_period_days` and `grace_period_end = now + days`, leaving
`is_active` untouched. -/
def rotateOldKey (old : APIKey) (now : ℚ) (grace_period_days : ℤ)
    (was_compromised : Bool) : APIKey :=
  if was_compromised then
    { old with
      is_active := false
      was_compromised := true
      grace_period_days := some 0
      grace_period_end := none }
  else
    { old with
      grace_period_days := some grace_period_days
      grace_period_end := some (now + (grace_period_days : ℚ) * 86400) }

/-- Outcome of `get_current_user_from_api_key`: either the resolved user
(with the grace-period rotation-warning flag that the function sets on
`request.state`), or an `HTTPException(401, detail)`. -/
inductive AuthResult where
  | ok (user_id : String) (rotationWarning : Bool)
  | unauthorized (detail : String)
  deriving Repr, DecidableEq

/-- Whether an `AuthResult` is a successful authentication. -/
def AuthResult.isOk : AuthResult → Bool
  | .ok _ _ => true
  | .unauthorized _ => false

/-- `get_current_user_from_api_key` from `src/core/auth/api_key.py`
(request-time authentication): require the header, parse the prefix, look
the key up by prefix, verify the full value against the stored hash, then
`if not db_api_key.is_active:` allow only when
`grace_period_end and now <= grace_period_end`, then reject when
`expires_at and now > expires_at`, resolve the user, and report the
rotation warning when `grace_period_end and now <= grace_period_end`.
The database is a list of keys (`find?` is the prefix lookup) plus the set
of known user ids. -/
def get_current_user_from_api_key (H : String → String) (db : List APIKey)
    (users : List String) (api_key : Option String) (now : ℚ) : AuthResult :=
  match api_key with
  | none => .unauthorized "API key is required"
  | some v =>
    match parse_key v with
    | none => .unauthorized "Invalid API key format"
    | some (pfx, _) =>
      match db.find? (fun k => k.pfx == pfx) with
      | none => .unauthorized "Invalid API key"
      | some k =>
        if !(APIKey.verify H v k.key_hash) then
          .unauthorized "Invalid API key"
        else if !k.is_active && !(k.is_in_grace_period now) then
          .unauthorized "API key is inactive"
        else if k.is_expired now then
          .unauthorized "API key is expired"
        else if !(users.contains k.user_id) then
          .unauthorized "User not found"
        else
          .ok k.user_id (k.is_in_grace_period now)

/-- The user object seen by `require_scope` in `src/core/auth/scope.py`:
only `is_admin` and the (possibly absent, modelled empty) `scopes`
attribute matter. -/
structure ScopeUser where
  is_admin : Bool
  scopes : List String
  deriving Repr, DecidableEq

/-- Outcome of the `scope_dependency` check: pass the user through, or
`HTTPException(403)` reporting the missing scopes. -/
inductive ScopeResult where
  | granted
  | denied (missing : List String)
  deriving Repr, DecidableEq

/-- `require_scope` from `src/core/auth/scope.py`: empty requirement
passes; admin users pass; otherwise the user's scopes (defaulting to
`["read"]` when the attribute is missing or empty) must literally contain
every required scope, else 403 with the missing ones.  There is no special
treatment of `"*"` in this implementation. -/
def require_scope (required_scopes : List String) (u : ScopeUser) : ScopeResult :=
  if required_scopes.isEmpty then .granted
  else if u.is_admin then .granted
  else
    let user_scopes := if u.scopes.isEmpty then ["read"] else u.scopes
    let missing := required_scopes.filter (fun s => !(user_scopes.contains s))
    if missing.isEmpty then .granted else .denied missing

/-! ### TokenBucket (`src/core/security.py`) -/

/-- The fixed configuration of `TokenBucket.__init__`: it merely stores
`float(capacity)` and `float(refill_rate)`; the body contains no
validation and no `raise`.  The `Except` channel is the Python exception
channel of the constructor. -/
structure TokenBucket where
  capacity : ℚ
  refill_rate : ℚ
  deriving Repr, DecidableEq

/-- `TokenBucket.__init__(capacity, refill_rate)`: returns a bucket
unconditionally (no misconfiguration check exists in the source). -/
def TokenBucket.init (capacity refill_rate : ℚ) : Except String TokenBucket :=
  .ok ⟨capacity, refill_rate⟩

/-- Per-client entry of the `_tokens` / `_timestamps` dicts (the two dicts
are always populated together by the source, so one optional record models
the pair; `none` is the not-yet-seen client). -/
structure ClientState where
  tokens : ℚ
  last : ℚ
  deriving Repr, DecidableEq

/-- `TokenBucket._refill(client_id)` for one client: a new client is
initialised at full capacity; otherwise
`tokens = min(capacity, tokens + elapsed * refill_rate)` and the timestamp
advances to `now`. -/
def TokenBucket.refill (b : TokenBucket) (st : Option ClientState) (now : ℚ) :
    ClientState :=
  match st with
  | none => ⟨b.capacity, now⟩
  | some s => ⟨min b.capacity (s.tokens + (now - s.last) * b.refill_rate), now⟩

/-- `TokenBucket.take(client_id, tokens)`: refill, then consume when
`tokens <= current_tokens`, else leave the refilled state unchanged and
return `False`. -/
def TokenBucket.take (b : TokenBucket) (st : Option ClientState) (now cost : ℚ) :
    Bool × ClientState :=
  let s := b.refill st now
  if cost ≤ s.tokens then (true, ⟨s.tokens - cost, s.last⟩) else (false, s)

/-- `TokenBucket.get_tokens(client_id)` (the spec's `peek`): refill and
report without consuming. -/
def TokenBucket.get_tokens (b : TokenBucket) (st : Option ClientState) (now : ℚ) :
    ℚ × ClientState :=
  let s := b.refill st now
  (s.tokens, s)

/-- One operation of a single-identity interaction history: a `take` with
its wall-clock time and cost, or a `peek` (`get_tokens`). -/
inductive BucketOp where
  | take (t : ℚ) (cost : ℚ)
  | peek (t : ℚ)
  deriving Repr, DecidableEq

/-- The wall-clock instant at which an operation is issued. -/
def BucketOp.time : BucketOp → ℚ
  | .take t _ => t
  | .peek t => t

/-- Apply one operation to the per-client state. -/
def BucketOp.apply (b : TokenBucket) (st : Option ClientState) :
    BucketOp → ClientState
  | .take t c => (b.take st t c).2
  | .peek t => (b.get_tokens st t).2

/-- The trace of per-client states after each successive operation. -/
def bucketStates (b : TokenBucket) (st : Option ClientState) :
    List BucketOp → List ClientState
  | [] => []
  | op :: rest =>
    let s := op.apply b st
    s :: bucketStates b (some s) rest

/-- Every `take` in the history has non-negative cost. -/
def costsOk : List BucketOp → Bool
  | [] => true
  | .take _ c :: rest => decide (0 ≤ c) && costsOk rest
  | .peek _ :: rest => costsOk rest

/-- Operation times are non-decreasing, and not earlier than the optional
lower bound (the wall clock never runs backwards). -/
def chronOk : Option ℚ → List BucketOp → Bool
  | _, [] => true
  | none, op :: rest => chronOk (some op.time) rest
  | some p, op :: rest => decide (p ≤ op.time) && chronOk (some op.time) rest

/-- Every state of a trace keeps its token count inside `[0, capacity]`. -/
def tracesInBounds (b : TokenBucket) (l : List ClientState) : Bool :=
  l.all fun s => decide (0 ≤ s.tokens) && decide (s.tokens ≤ b.capacity)

/-! ### CircuitBreaker (`src/core/optimizations/circuit_breaker.py`) -/

/-- `CircuitState` enum. -/
inductive CircuitState where
  | CLOSED
  | OPEN
  | HALF_OPEN
  deriving Repr, DecidableEq

/-- Mutable state of a `CircuitBreaker` plus its fixed configuration
(`failure_threshold`, `recovery_timeout`).  The `expected_exceptions`
filter and the optional `fallback_function` are passed to `execute`
separately (as a predicate on errors and an optional fallback value). -/
structure CircuitBreaker where
  failure_threshold : ℕ
  recovery_timeout : ℚ
  state : CircuitState
  failure_count : ℕ
  last_failure_time : ℚ
  last_success_time : ℚ
  deriving Repr, DecidableEq

/-- A fresh breaker as built by `__init__` at clock `now`:
`CLOSED`, zero failures, `last_failure_time = 0`,
`last_success_time = time.time()`. -/
def CircuitBreaker.mk0 (failure_threshold : ℕ) (recovery_timeout : ℚ) (now : ℚ) :
    CircuitBreaker :=
  ⟨failure_threshold, recovery_timeout, .CLOSED, 0, 0, now⟩

/-- `CircuitBreaker._check_state`: when `OPEN` and the recovery timeout has
elapsed since the last failure, move to `HALF_OPEN`; when still `OPEN`,
raise `CircuitOpenError` carrying the remaining wait
`recovery_timeout - (now - last_failure_time)` (returned as `some`). -/
def CircuitBreaker.check_state (cb : CircuitBreaker) (now : ℚ) :
    Option ℚ × CircuitBreaker :=
  if cb.state = .OPEN then
    if cb.recovery_timeout ≤ now - cb.last_failure_time then
      (none, { cb with state := .HALF_OPEN })
    else
      (some (cb.recovery_timeout - (now - cb.last_failure_time)), cb)
  else (none, cb)

/-- `CircuitBreaker._on_success`: record the success time; `HALF_OPEN`
closes the circuit and resets the count; `CLOSED` resets the count. -/
def CircuitBreaker.on_success (cb : CircuitBreaker) (now : ℚ) : CircuitBreaker :=
  let cb := { cb with last_success_time := now }
  match cb.state with
  | .HALF_OPEN => { cb with state := .CLOSED, failure_count := 0 }
  | .CLOSED => { cb with failure_count := 0 }
  | .OPEN => cb

/-- `CircuitBreaker._on_failure`: record the failure time; in `CLOSED`
increment the count and open the circuit once
`failure_count >= failure_threshold`; in `HALF_OPEN` reopen immediately. -/
def CircuitBreaker.on_failure (cb : CircuitBreaker) (now : ℚ) : CircuitBreaker :=
  let cb := { cb with last_failure_time := now }
  match cb.state with
  | .CLOSED =>
    let fc := cb.failure_count + 1
    if cb.failure_threshold ≤ fc then
      { cb with failure_count := fc, state := .OPEN }
    else
      { cb with failure_count := fc }
  | .HALF_OPEN => { cb with state := .OPEN }
  | .OPEN => cb

/-- What `execute` hands back to its caller. -/
inductive ExecResult (α ε : Type) where
  | value (v : α)
  | circuitOpen (remaining : ℚ)
  | raised (e : ε)
  deriving Repr, DecidableEq

/-- Full outcome of one `execute` call: the caller-visible result, the
breaker's new state, and whether the wrapped operation was invoked. -/
structure ExecOutput (α ε : Type) where
  result : ExecResult α ε
  cb : CircuitBreaker
  invoked : Bool
  deriving Repr, DecidableEq

/-- `CircuitBreaker.execute(func, ...)`: `_check_state` first
(`CircuitOpenError` fails fast without invoking `func`); then the call —
its would-be outcome is `op : Except ε α`; success runs `_on_success`; a
failure matching `expected_exceptions` (the `countable` predicate) runs
`_on_failure`, then returns the fallback's value when a fallback is
configured, else re-raises; a non-matching failure propagates untouched. -/
def CircuitBreaker.execute {α ε : Type} (cb : CircuitBreaker) (now : ℚ)
    (op : Except ε α) (countable : ε → Bool) (fallback : Option α) :
    ExecOutput α ε :=
  match cb.check_state now with
  | (some remaining, cb1) => ⟨.circuitOpen remaining, cb1, false⟩
  | (none, cb1) =>
    match op with
    | .ok v => ⟨.value v, cb1.on_success now, true⟩
    | .error e =>
      if countable e then
        let cb2 := cb1.on_failure now
        match fallback with
        | some fv => ⟨.value fv, cb2, true⟩
        | none => ⟨.raised e, cb2, true⟩
      else ⟨.raised e, cb1, true⟩

/-- Fold a sequence of `(time, outcome)` calls through `execute` (no
fallback, everything countable), keeping only the breaker state: the shape
of the C6 scenario. -/
def CircuitBreaker.run {α ε : Type} (countable : ε → Bool)
    (cb : CircuitBreaker) : List (ℚ × Except ε α) → CircuitBreaker
  | [] => cb
  | (t, op) :: rest =>
    CircuitBreaker.run countable (cb.execute t op countable none).cb rest

/-! ## Concrete scenario data used by individual claims -/

/-- A stand-in deterministic hash function for concrete scenarios (the
source's SHA-256 is abstract in this development). -/
def demoHash : String → String := fun s => "h" ++ s

/-- An issued, active, never-expiring key whose stored hash is the hash of
the full value `"ab.s"`, as `generate` stores it. -/
def demoOldKey : APIKey :=
  ⟨"kid", demoHash "ab.s", "ab", "key", "uid", ["read"], 0, none, true,
   none, none, none, none, false⟩

/-- `demoOldKey` after a routine (non-compromised) rotation at `t = 0`
with a 7-day grace period, via `rotate_api_key`'s old-key mutation. -/
def demoRotatedKey : APIKey := rotateOldKey demoOldKey 0 7 false

/-- An active key with `expires_at = 100`. -/
def demoExpiringKey : APIKey :=
  ⟨"kid9", "hh", "cd", "key9", "uid9", [], 0, some 100, true,
   none, none, none, none, false⟩

/-- A key with `grace_period_end = 50`. -/
def demoGraceKey : APIKey :=
  ⟨"kid10", "hh", "ef", "key10", "uid10", [], 0, none, true,
   none, none, some 7, some 50, false⟩

/-- A short single-identity interaction history for the token bucket
`capacity = 5`, `fillRate = 2`: three takes (one of them over-capacity and
denied) interleaved with a peek. -/
def demoOps : List BucketOp :=
  [.take 0 1, .peek 1, .take 1 10, .take 2 3]

/-! ## Claims -/

/-- Claim C1, counterexample.  The claim states that `verify` splits the
provided value on the first `.` and recomputes the hash of the secret
portion only.  The source's `APIKey.verify` hashes the ENTIRE provided
value without splitting: with hash function `fun s => s`, provided value
`"a.b"` and stored hash `"a.b"`, the code's `verify` answers `true` while
the claim's described computation (hash of the secret portion `"b"`
against `"a.b"`) answers `false`. -/
theorem verify_not_split_counterexample :
    APIKey.verify (fun s => s) "a.b" "a.b" = true ∧
    verifySpecWords (fun s => s) "a.b" "a.b" = false := by
  constructor <;> rfl

/-- Claim C1, amended: for every hash function, `verify` recomputes the
hash of the entire provided value (no splitting) and compares it with the
stored hash by constant-time comparison, returning `true` exactly when the
hash of the full value equals the stored hash; since `generate` stores the
hash of the full `"prefix.secret"` string, every generated key round-trips
through `verify`. -/
theorem verify_full_value_characterization (H : String → String)
    (key_value key_hash : String) :
    (APIKey.verify H key_value key_hash = true ↔ H key_value = key_hash) ∧
    (∀ (user_id name key_id pfx secret : String) (scopes : List String)
       (expires_in_days : Option ℤ) (now : ℚ),
       APIKey.verify H
         (APIKey.generate H user_id name scopes expires_in_days pfx secret key_id now).2
         (APIKey.generate H user_id name scopes expires_in_days pfx secret key_id now).1.key_hash
         = true) := by
  constructor
  · simp [APIKey.verify, compare_digest]
  · intro user_id name key_id pfx secret scopes expires_in_days now
    simp [APIKey.verify, APIKey.generate, compare_digest]

/-- Claim C2: the scope-authorization check of
`src/core/auth/scope.py` does NOT grant on `"*"`.  A non-admin owner whose
scopes are exactly `["*"]` is denied the scope `"write"` with
`missing = ["write"]`, although the claim (and the repository's own test
`test_api_key_auth`, which expects a `["*"]` user to pass both scope
endpoints, as well as the duplicate `require_scope` in
`src/core/auth.py`) grants it. -/
theorem require_scope_wildcard_denied :
    require_scope ["write"] ⟨false, ["*"]⟩ = .denied ["write"] := by
  rfl

/-- Claim C3: evaluation of the code at the failing input.  Routine
rotation at `t = 0` with `grace_period_days = 7` leaves the old key
active, in grace immediately and out of grace after 8 days
(`691200 = 8 * 86400` seconds) — but authentication with the old value
still SUCCEEDS after the grace window, because `is_active` is still
`true` and `get_current_user_from_api_key` consults the grace window only
for inactive keys; the claim says it must fail there. -/
theorem routine_rotation_old_key_outlives_grace :
    demoRotatedKey.is_active = true ∧
    Model.is_in_grace_period demoRotatedKey 0 = true ∧
    APIKey.is_in_grace_period demoRotatedKey 0 = true ∧
    Model.is_in_grace_period demoRotatedKey 691200 = false ∧
    APIKey.is_in_grace_period demoRotatedKey 691200 = false ∧
    (get_current_user_from_api_key demoHash [demoRotatedKey] ["uid"]
      (some "ab.s") 0).isOk = true ∧
    (get_current_user_from_api_key demoHash [demoRotatedKey] ["uid"]
      (some "ab.s") 691200).isOk = true := by
  refine ⟨rfl, ?_, ?_, ?_, ?_, by decide, by decide⟩ <;>
    norm_num [Model.is_in_grace_period, APIKey.is_in_grace_period,
      demoRotatedKey, rotateOldKey, demoOldKey]

/-- Helper: authentication can never succeed against a key that is
inactive and has no grace period end — every branch of
`get_current_user_from_api_key` then answers 401. -/
theorem auth_inactive_no_grace_fails (H : String → String) (k : APIKey)
    (users : List String) (v : Option String) (now : ℚ)
    (hact : k.is_active = false) (hg : k.grace_period_end = none) :
    (get_current_user_from_api_key H [k] users v now).isOk = false := by
  have hgp : k.is_in_grace_period now = false := by
    simp [APIKey.is_in_grace_period, hg]
  cases v with
  | none => rfl
  | some s =>
    rcases hps : parse_key s with _ | ⟨px, rest⟩
    · simp [get_current_user_from_api_key, hps, AuthResult.isOk]
    · by_cases hpk : (k.pfx == px) = true
      · cases hv : APIKey.verify H s k.key_hash <;>
          simp [get_current_user_from_api_key, hps, List.find?, hpk, hv,
            hact, hgp, AuthResult.isOk]
      · simp [get_current_user_from_api_key, hps, List.find?, hpk,
          AuthResult.isOk]

/-- Claim C4: rotating a credential with `wasCompromised = true` (the
old-key mutation of `rotate_api_key` in `src/crud/api_key.py`) sets
`is_active := false`, `was_compromised := true` and
`grace_period_end := none` — so the invariant "compromised implies no
grace period end" holds — and for every hash function, user set, provided
value and time, authentication against the rotated-away key fails. -/
theorem compromised_rotation_no_grace (old : APIKey) (rnow : ℚ) (g : ℤ)
    (H : String → String) (users : List String) (v : Option String)
    (anow : ℚ) :
    (rotateOldKey old rnow g true).is_active = false ∧
    (rotateOldKey old rnow g true).was_compromised = true ∧
    (rotateOldKey old rnow g true).grace_period_end = none ∧
    (get_current_user_from_api_key H [rotateOldKey old rnow g true] users
      v anow).isOk = false := by
  refine ⟨rfl, rfl, rfl, ?_⟩
  exact auth_inactive_no_grace_fails H _ users v anow rfl rfl

/-- Helper: one `_refill` keeps the token count inside `[0, capacity]`
and moves the client's timestamp to `now`, provided the clock did not run
backwards. -/
theorem refill_bounds (b : TokenBucket) (hcap : 0 ≤ b.capacity)
    (hrate : 0 < b.refill_rate) (st : Option ClientState) (now : ℚ)
    (hst : ∀ s, st = some s →
      0 ≤ s.tokens ∧ s.tokens ≤ b.capacity ∧ s.last ≤ now) :
    0 ≤ (b.refill st now).tokens ∧ (b.refill st now).tokens ≤ b.capacity ∧
    (b.refill st now).last = now := by
  cases st with
  | none => exact ⟨hcap, le_refl _, rfl⟩
  | some s =>
    obtain ⟨h0, hc, hl⟩ := hst s rfl
    refine ⟨?_, ?_, rfl⟩
    · exact le_min hcap (add_nonneg h0
        (mul_nonneg (sub_nonneg.mpr hl) (le_of_lt hrate)))
    · exact min_le_left _ _

/-- Helper: one operation (a `take` of non-negative cost, or a `peek`)
keeps the token count inside `[0, capacity]` and stamps the state with
the operation's time. -/
theorem bucketOp_apply_bounds (b : TokenBucket) (hcap : 0 ≤ b.capacity)
    (hrate : 0 < b.refill_rate) (st : Option ClientState) (op : BucketOp)
    (hst : ∀ s, st = some s →
      0 ≤ s.tokens ∧ s.tokens ≤ b.capacity ∧ s.last ≤ op.time)
    (hcost : ∀ t c, op = .take t c → 0 ≤ c) :
    0 ≤ (op.apply b st).tokens ∧ (op.apply b st).tokens ≤ b.capacity ∧
    (op.apply b st).last = op.time := by
  cases op with
  | peek t =>
    simpa [BucketOp.apply, TokenBucket.get_tokens] using
      refill_bounds b hcap hrate st t hst
  | take t c =>
    have h := refill_bounds b hcap hrate st t hst
    have hc0 : 0 ≤ c := hcost t c rfl
    by_cases hle : c ≤ (b.refill st t).tokens
    · refine ⟨?_, ?_, ?_⟩ <;>
        simp only [BucketOp.apply, TokenBucket.take, if_pos hle]
      · exact sub_nonneg.mpr hle
      · exact le_trans (sub_le_self _ hc0) h.2.1
      · exact h.2.2
    · refine ⟨?_, ?_, ?_⟩ <;>
        simp only [BucketOp.apply, TokenBucket.take, if_neg hle]
      · exact h.1
      · exact h.2.1
      · exact h.2.2

/-- Helper: along a chronological history of non-negative-cost
operations, every state of the trace stays in bounds (generalised over
the starting per-client state). -/
theorem bucketStates_bounds (b : TokenBucket) (hcap : 0 ≤ b.capacity)
    (hrate : 0 < b.refill_rate) :
    ∀ (ops : List BucketOp) (st : Option ClientState),
      costsOk ops = true →
      chronOk (st.map ClientState.last) ops = true →
      (∀ s, st = some s → 0 ≤ s.tokens ∧ s.tokens ≤ b.capacity) →
      tracesInBounds b (bucketStates b st ops) = true := by
  intro ops
  induction ops with
  | nil => intro st _ _ _; rfl
  | cons op rest ih =>
    intro st hcost hchron hst
    have hlast : ∀ s, st = some s → s.last ≤ op.time := by
      intro s hs
      subst hs
      have h : chronOk (some s.last) (op :: rest) = true := hchron
      simp only [chronOk, Bool.and_eq_true, decide_eq_true_eq] at h
      exact h.1
    have hchron_rest : chronOk (some op.time) rest = true := by
      cases st with
      | none => exact hchron
      | some s =>
        have h : chronOk (some s.last) (op :: rest) = true := hchron
        simp only [chronOk, Bool.and_eq_true] at h
        exact h.2
    have hcost_op : ∀ t c, op = .take t c → 0 ≤ c := by
      intro t c hop
      subst hop
      simp only [costsOk, Bool.and_eq_true, decide_eq_true_eq] at hcost
      exact hcost.1
    have hcost_rest : costsOk rest = true := by
      cases op with
      | take t c => simp only [costsOk, Bool.and_eq_true] at hcost; exact hcost.2
      | peek t => simpa [costsOk] using hcost
    have hstep := bucketOp_apply_bounds b hcap hrate st op
      (fun s hs => ⟨(hst s hs).1, (hst s hs).2, hlast s hs⟩) hcost_op
    simp only [bucketStates, tracesInBounds, List.all_cons,
      Bool.and_eq_true, decide_eq_true_eq]
    refine ⟨⟨hstep.1, hstep.2.1⟩, ?_⟩
    have hch : chronOk (some (op.apply b st).last) rest = true := by
      rw [hstep.2.2]; exact hchron_rest
    have := ih (some (op.apply b st)) hcost_rest hch
      (fun s hs => by cases hs; exact ⟨hstep.1, hstep.2.1⟩)
    simpa [tracesInBounds] using this

/-- Claim C5: for every finite chronological sequence of `take` calls
with non-negative costs interleaved with `get_tokens` (`peek`) calls on a
single fresh identity of a `TokenBucket` with `capacity ≥ 0` and
`fillRate > 0`, the identity's stored token count stays inside
`[0, capacity]` after every operation. -/
theorem tokenBucket_tokens_in_bounds (capacity refill_rate : ℚ)
    (hcap : 0 ≤ capacity) (hrate : 0 < refill_rate) (ops : List BucketOp)
    (hcost : costsOk ops = true) (hchron : chronOk none ops = true) :
    tracesInBounds ⟨capacity, refill_rate⟩
      (bucketStates ⟨capacity, refill_rate⟩ none ops) = true :=
  bucketStates_bounds ⟨capacity, refill_rate⟩ hcap hrate ops none hcost
    hchron (fun s hs => by cases hs)

/-- Claim C5, witness: the bound theorem applied to the concrete history
`demoOps` on a bucket with capacity 5 and fill rate 2. -/
theorem tokenBucket_tokens_in_bounds_witness :
    (0 : ℚ) ≤ 5 ∧ (0 : ℚ) < 2 ∧ costsOk demoOps = true ∧
    chronOk none demoOps = true ∧
    tracesInBounds ⟨5, 2⟩ (bucketStates ⟨5, 2⟩ none demoOps) = true :=
  ⟨by norm_num, by norm_num, by decide, by decide,
    tokenBucket_tokens_in_bounds 5 2 (by norm_num) (by norm_num) demoOps
      (by decide) (by decide)⟩

/-- Claim C6: starting `CLOSED` with `failure_count = 0` and
`failure_threshold = 5`, the 5th consecutive countable failure moves the
breaker to `OPEN` (with the 5th failure's time recorded), and every
`execute` call made while `OPEN` and strictly before
`recovery_timeout` seconds have elapsed since that failure returns the
circuit-open error carrying the remaining wait
`T - (t - t5)`, does not invoke the wrapped operation, and leaves the
breaker state unchanged. -/
theorem circuitBreaker_opens_at_threshold_then_fails_fast {α ε : Type}
    (c : ε → Bool) (T now0 t1 t2 t3 t4 t5 t : ℚ) (e1 e2 e3 e4 e5 : ε)
    (h1 : c e1 = true) (h2 : c e2 = true) (h3 : c e3 = true)
    (h4 : c e4 = true) (h5 : c e5 = true) (hlt : t - t5 < T)
    (op : Except ε α) (fb : Option α) :
    CircuitBreaker.run c (CircuitBreaker.mk0 5 T now0)
      ([(t1, .error e1), (t2, .error e2), (t3, .error e3),
        (t4, .error e4), (t5, .error e5)] : List (ℚ × Except ε α)) =
      ⟨5, T, .OPEN, 5, t5, now0⟩ ∧
    (CircuitBreaker.execute (⟨5, T, .OPEN, 5, t5, now0⟩ : CircuitBreaker)
        t op c fb).result = .circuitOpen (T - (t - t5)) ∧
    (CircuitBreaker.execute (⟨5, T, .OPEN, 5, t5, now0⟩ : CircuitBreaker)
        t op c fb).invoked = false ∧
    (CircuitBreaker.execute (⟨5, T, .OPEN, 5, t5, now0⟩ : CircuitBreaker)
        t op c fb).cb = ⟨5, T, .OPEN, 5, t5, now0⟩ := by
  have hopen : CircuitBreaker.execute
      (⟨5, T, .OPEN, 5, t5, now0⟩ : CircuitBreaker) t op c fb =
      ⟨.circuitOpen (T - (t - t5)), ⟨5, T, .OPEN, 5, t5, now0⟩, false⟩ := by
    simp [CircuitBreaker.execute, CircuitBreaker.check_state,
      not_le.mpr hlt]
  refine ⟨?_, by rw [hopen], by rw [hopen], by rw [hopen]⟩
  simp [CircuitBreaker.run, CircuitBreaker.execute, CircuitBreaker.mk0,
    CircuitBreaker.check_state, CircuitBreaker.on_failure,
    h1, h2, h3, h4, h5]

/-- Claim C6, witness: the theorem applied to a breaker with threshold 5
and 30-second recovery timeout, five failures at times 1..5, and a
blocked call at time 10. -/
theorem circuitBreaker_opens_witness :
    ((fun _ => true) (0 : ℕ) = true) ∧ ((10 : ℚ) - 5 < 30) ∧
    CircuitBreaker.run (fun _ => true) (CircuitBreaker.mk0 5 30 0)
      ([(1, .error 0), (2, .error 0), (3, .error 0),
        (4, .error 0), (5, .error 0)] : List (ℚ × Except ℕ ℕ)) =
      ⟨5, 30, .OPEN, 5, 5, 0⟩ ∧
    (CircuitBreaker.execute (⟨5, 30, .OPEN, 5, 5, 0⟩ : CircuitBreaker)
        10 (Except.ok 7 : Except ℕ ℕ) (fun _ => true) none).result =
      .circuitOpen (30 - (10 - 5)) ∧
    (CircuitBreaker.execute (⟨5, 30, .OPEN, 5, 5, 0⟩ : CircuitBreaker)
        10 (Except.ok 7 : Except ℕ ℕ) (fun _ => true) none).invoked = false :=
  ⟨rfl, by norm_num, (circuitBreaker_opens_at_threshold_then_fails_fast
      (fun _ => true) 30 0 1 2 3 4 5 10 0 0 0 0 0 rfl rfl rfl rfl rfl
      (by norm_num) (Except.ok 7) none).1,
    (circuitBreaker_opens_at_threshold_then_fails_fast
      (fun _ => true) 30 0 1 2 3 4 5 10 0 0 0 0 0 rfl rfl rfl rfl rfl
      (by norm_num) (Except.ok 7) none).2.1,
    (circuitBreaker_opens_at_threshold_then_fails_fast
      (fun _ => true) 30 0 1 2 3 4 5 10 0 0 0 0 0 rfl rfl rfl rfl rfl
      (by norm_num) (Except.ok 7) none).2.2.1⟩

/-- Claim C7, counterexample.  The claim states that `execute` re-raises
the original countable failure in EVERY configuration, including when a
fallback is configured.  With a fallback configured, the source returns
the fallback's value and never re-raises: a fresh breaker executing a
failing operation with fallback value 42 answers `value 42`, not
`raised "boom"`. -/
theorem execute_fallback_masks_error_counterexample :
    (CircuitBreaker.execute (CircuitBreaker.mk0 5 30 0) 1
        (Except.error "boom" : Except String ℕ) (fun _ => true)
        (some 42)).result = .value 42 ∧
    (CircuitBreaker.execute (CircuitBreaker.mk0 5 30 0) 1
        (Except.error "boom" : Except String ℕ) (fun _ => true)
        (some 42)).result ≠ .raised "boom" := by
  decide

/-- Claim C7, amended: whenever `_check_state` lets the call through and
the wrapped operation raises a countable failure, `execute` performs its
failure bookkeeping (`_on_failure`); it then re-raises the original
failure exactly when NO fallback is configured, and when a fallback is
configured it returns the fallback's value instead of raising. -/
theorem execute_reraise_unless_fallback {α ε : Type} (cb : CircuitBreaker)
    (now : ℚ) (e : ε) (c : ε → Bool) (hc : c e = true)
    (hpass : (cb.check_state now).1 = none) :
    (cb.execute now (.error e) c (none : Option α)).result = .raised e ∧
    (cb.execute now (.error e) c (none : Option α)).cb =
      ((cb.check_state now).2).on_failure now ∧
    ∀ fv : α,
      (cb.execute now (.error e) c (some fv)).result = .value fv ∧
      (cb.execute now (.error e) c (some fv)).cb =
        ((cb.check_state now).2).on_failure now := by
  rcases hcs : cb.check_state now with ⟨o, cb2⟩
  have ho : o = none := by rw [hcs] at hpass; exact hpass
  subst ho
  refine ⟨?_, ?_, fun fv => ⟨?_, ?_⟩⟩ <;>
    simp [CircuitBreaker.execute, hcs, hc]

/-- Claim C7, witness: the amended theorem applied to a fresh breaker, a
countable failure `0 : ℕ`, and fallback value 42. -/
theorem execute_reraise_unless_fallback_witness :
    ((fun _ => true) (0 : ℕ) = true) ∧
    ((CircuitBreaker.mk0 5 30 0).check_state 1).1 = none ∧
    ((CircuitBreaker.mk0 5 30 0).execute 1
      (Except.error 0 : Except ℕ ℕ) (fun _ => true) none).result =
      .raised 0 ∧
    ((CircuitBreaker.mk0 5 30 0).execute 1
      (Except.error 0 : Except ℕ ℕ) (fun _ => true) (some 42)).result =
      .value 42 :=
  ⟨rfl, rfl,
    (execute_reraise_unless_fallback (CircuitBreaker.mk0 5 30 0) 1 0
      (fun _ => true) rfl rfl).1,
    ((execute_reraise_unless_fallback (CircuitBreaker.mk0 5 30 0) 1 0
      (fun _ => true) rfl rfl).2.2 42).1⟩

/-- Claim C8, counterexample.  The claim states that constructing a
`TokenBucket` with `fillRate ≤ 0` or `capacity < 0` fails at construction
time; the source constructor performs no validation and succeeds on
`capacity = -1`, `refill_rate = 0`. -/
theorem tokenBucket_init_no_validation_counterexample :
    TokenBucket.init (-1) 0 = .ok ⟨-1, 0⟩ := by
  rfl

/-- Claim C8, amended: the `TokenBucket` constructor performs no
validation at all — for every capacity and fill rate, including
`fillRate ≤ 0` and `capacity < 0`, construction succeeds and stores
exactly the given values; misconfiguration is never rejected at
construction time. -/
theorem tokenBucket_init_always_ok (capacity refill_rate : ℚ) :
    TokenBucket.init capacity refill_rate = .ok ⟨capacity, refill_rate⟩ := by
  rfl

/-- Claim C9, counterexample.  At the instant exactly equal to
`expires_at` the credential is still VALID in the source: with
`expires_at = 100` and `now = 100`, the ORM `is_valid` answers `true` and
the auth-layer `is_expired` answers `false`, although the claim says the
validity check returns `false` at that instant. -/
theorem expiry_instant_still_valid_counterexample :
    Model.is_valid demoExpiringKey 100 = true ∧
    APIKey.is_expired demoExpiringKey 100 = false := by
  decide

/-- Claim C9, amended: for every credential with `expires_at = some e`,
the auth-layer expiry check reports expiry exactly when `now` is STRICTLY
later than `e`, and (for an active credential) the ORM validity check
answers `true` exactly when `now ≤ e` — a credential exactly at its
expiry instant is still valid. -/
theorem expiry_strictly_after (k : APIKey) (now e : ℚ)
    (he : k.expires_at = some e) :
    APIKey.is_expired k now = decide (e < now) ∧
    (k.is_active = true → Model.is_valid k now = decide (now ≤ e)) := by
  constructor
  · simp [APIKey.is_expired, he]
  · intro ha
    by_cases h : e < now
    · simp [Model.is_valid, he, ha, h, not_le.mpr h]
    · simp [Model.is_valid, he, ha, h, not_lt.mp h]

/-- Claim C9, witness: the amended theorem applied to `demoExpiringKey`
(expiring at `100`) at `now = 200`. -/
theorem expiry_strictly_after_witness :
    demoExpiringKey.expires_at = some 100 ∧
    APIKey.is_expired demoExpiringKey 200 = decide ((100 : ℚ) < 200) ∧
    (demoExpiringKey.is_active = true →
      Model.is_valid demoExpiringKey 200 = decide ((200 : ℚ) ≤ 100)) :=
  ⟨rfl, (expiry_strictly_after demoExpiringKey 200 100 rfl).1,
    (expiry_strictly_after demoExpiringKey 200 100 rfl).2⟩

/-- Claim C10, counterexample.  The two grace-period predicates are NOT
extensionally equal: at the instant exactly equal to
`grace_period_end = 50`, the ORM predicate (`grace_period_end > now`)
answers `false` while the auth-layer predicate
(`now <= grace_period_end`) answers `true`. -/
theorem grace_predicates_disagree_at_boundary :
    Model.is_in_grace_period demoGraceKey 50 = false ∧
    APIKey.is_in_grace_period demoGraceKey 50 = true := by
  decide

/-- Claim C10, amended: the ORM `is_in_grace_period` and the auth-layer
`is_in_grace_period` agree at every credential state and time EXCEPT
exactly when `grace_period_end = some now`; at that boundary instant the
ORM predicate returns `false` and the auth-layer predicate returns
`true`. -/
theorem grace_predicates_agree_off_boundary (k : APIKey) (now : ℚ) :
    (Model.is_in_grace_period k now = APIKey.is_in_grace_period k now ↔
      k.grace_period_end ≠ some now) ∧
    (k.grace_period_end = some now →
      Model.is_in_grace_period k now = false ∧
      APIKey.is_in_grace_period k now = true) := by
  constructor
  · cases hk : k.grace_period_end with
    | none => simp [Model.is_in_grace_period, APIKey.is_in_grace_period, hk]
    | some e =>
      simp only [Model.is_in_grace_period, APIKey.is_in_grace_period, hk,
        ne_eq, Option.some.injEq, decide_eq_decide]
      constructor
      · intro h he
        rw [he] at h
        exact absurd (h.mpr le_rfl) (lt_irrefl now)
      · intro h
        constructor
        · intro hlt
          exact le_of_lt hlt
        · intro hle
          exact lt_of_le_of_ne hle (fun hne => h hne.symm)
  · intro hk
    simp [Model.is_in_grace_period, APIKey.is_in_grace_period, hk]

/-- Claim C10, witness: the amended theorem applied to `demoGraceKey`
(`grace_period_end = 50`) at the boundary instant `now = 50`. -/
theorem grace_predicates_agree_off_boundary_witness :
    demoGraceKey.grace_period_end = some 50 ∧
    Model.is_in_grace_period demoGraceKey 50 = false ∧
    APIKey.is_in_grace_period demoGraceKey 50 = true :=
  ⟨rfl, (grace_predicates_agree_off_boundary demoGraceKey 50).2 rfl⟩

end ColonyCraft
